import Mathlib

/-!
Shallow embedding of the STARWEAVE image-generation service's model
lifecycle and cache manager (`src/services/python/server/image_generation_servicer.py`).

Machine integers are modelled as `Nat` (timestamps, counters, byte sizes;
disk sizes are taken in units of 0.1 GB so that the 90%-of-quota threshold
is exact).  The opaque inference pipeline handle is modelled as `Option Nat`.
Fallible external effects (moving a pipeline to the CPU, deleting a
directory tree) are modelled by an explicit success flag supplied to the
operation, since their outcome is decided by the environment, not by the
code under verification.  The CUDA-specific branches of the source
(`torch.cuda.is_available()` guards) are modelled as absent, i.e. the
CPU-only execution of the same code.
-/

namespace Starweave

/-- Substring test: `subIn needle hay` is Python's `needle in hay` on
character lists (scan every suffix for a prefix match). -/
def subIn (needle : List Char) : List Char → Bool
  | [] => needle.isEmpty
  | c :: t => needle.isPrefixOf (c :: t) || subIn needle t

/-- Python's `needle in hay` on strings. -/
def strIn (needle hay : String) : Bool :=
  subIn needle.toList hay.toList

/-- First 100 characters of a string: Python's `s[:100]`. -/
def take100 (s : String) : String :=
  String.mk (s.toList.take 100)

/-- `DEFAULT_MODEL` constant of the servicer module. -/
def DEFAULT_MODEL : String := "stabilityai/stable-diffusion-2-1"

/-- `MIN_IMAGE_SIZE` constant. -/
def MIN_IMAGE_SIZE : Nat := 128

/-- `MAX_IMAGE_SIZE` constant. -/
def MAX_IMAGE_SIZE : Nat := 1024

/-- `MAX_STEPS` constant. -/
def MAX_STEPS : Nat := 100

/-- The registry-owned part of `ModelConfig` that the verified claims
touch (identifier, resolution catalog, step bounds). -/
structure ModelConfig where
  model_id : String
  default_size : Nat × Nat
  supported_sizes : List (Nat × Nat)
  min_steps : Nat
  max_steps : Nat
  default_steps : Nat
deriving Repr, DecidableEq

/-- The `stabilityai/stable-diffusion-2-1` entry of `_init_models`. -/
def sd21Config : ModelConfig :=
  { model_id := "stabilityai/stable-diffusion-2-1"
    default_size := (768, 768)
    supported_sizes := [(512, 512), (768, 768)]
    min_steps := 10
    max_steps := 100
    default_steps := 30 }

/-- The `runwayml/stable-diffusion-v1-5` entry of `_init_models`. -/
def sd15Config : ModelConfig :=
  { model_id := "runwayml/stable-diffusion-v1-5"
    default_size := (512, 512)
    supported_sizes := [(384, 384), (512, 512)]
    min_steps := 10
    max_steps := 100
    default_steps := 25 }

/-- Mutable per-model runtime state: the `ModelInfo` dataclass.  The
pipeline handle is opaque (`Option Nat`); timestamps are an abstract
`Nat` clock. -/
structure ModelInfo where
  pipeline : Option Nat := none
  loaded : Bool := false
  loading : Bool := false
  load_error : Option String := none
  last_used : Nat := 0
  memory_usage : Nat := 0
  load_count : Nat := 0
  error_count : Nat := 0
deriving Repr, DecidableEq

/-- A fresh registry entry, as built by `_init_models`. -/
def freshInfo : ModelInfo := {}

/-- The phase/handle invariant of the spec's data model: `loaded` and
`loading` are never simultaneously true (so exactly one of
unloaded/loading/loaded holds, "unloaded" meaning both flags false), and
the pipeline handle is present iff the model is loaded. -/
def phaseOk (m : ModelInfo) : Prop :=
  ¬(m.loaded = true ∧ m.loading = true) ∧ (m.pipeline.isSome = m.loaded)

instance (m : ModelInfo) : Decidable (phaseOk m) := by
  unfold phaseOk; infer_instance

/-- `_unload_model`: everything runs inside one `try`.  Moving the
pipeline to the CPU can raise; `releaseOk = false` models that raise, in
which case the handler only increments `error_count` and the
handle/flags are left untouched.  On success the handle is dropped and
`loaded` cleared.  A model with no handle is left unchanged. -/
def unload_model (releaseOk : Bool) (m : ModelInfo) : ModelInfo :=
  if m.pipeline.isSome then
    if releaseOk then { m with pipeline := none, loaded := false }
    else { m with error_count := m.error_count + 1 }
  else m

/-- The synchronous prefix of `_load_model` (before the thread is
spawned): returns the updated state, the boolean result, and whether a
load task was dispatched.  Already loaded ⇒ `true`, no change; already
loading ⇒ `false`, no change; otherwise the loading flag is set and a
task dispatched. -/
def load_model_pre (m : ModelInfo) : ModelInfo × Bool × Bool :=
  if m.loaded then (m, true, false)
  else if m.loading then (m, false, false)
  else ({ m with loading := true }, true, true)

/-- The needle of the source's special-case check
`"Unexpected UNet sample size" in str(e)`. -/
def unetNeedle : String := "Unexpected UNet sample size"

/-- The error message recorded by the load task's failure handler:
`f"Failed to load model {model_id}: {str(e)}"`. -/
def failMsg (model_id e : String) : String :=
  "Failed to load model " ++ model_id ++ ": " ++ e

/-- Outcome of the environment-dependent part of the `_load` task:
either the pipeline is constructed and passes validation (with the
warm-up attempt's own success bit, which the code only logs), or some
step raised with message `e`. -/
inductive LoadOutcome where
  | success (warmupOk : Bool) (handle : Nat) : LoadOutcome
  | failure (e : String) : LoadOutcome
deriving Repr, DecidableEq

/-- The `_load` task body, given the environment's outcome and the
current clock.  Returns the new state and whether the task took the
special-case early `return self._load_model("runwayml/stable-diffusion-v1-5")`
(substituting the alternate model).  On success: handle stored, `loaded`
set, `loading` cleared, `load_count` incremented, `last_used` stamped
(a warm-up failure is only logged).  On failure: if the message contains
the UNet-sample-size needle and the model is the default, the task
returns early without touching the state; otherwise it records
`load_error`, clears `loading` and increments `error_count`. -/
def loadTask (model_id : String) (now : Nat) (outcome : LoadOutcome)
    (m : ModelInfo) : ModelInfo × Bool :=
  match outcome with
  | .success _warmupOk h =>
      ({ m with pipeline := some h, loaded := true, loading := false,
                load_count := m.load_count + 1, last_used := now }, false)
  | .failure e =>
      if strIn unetNeedle e && (model_id == DEFAULT_MODEL) then
        (m, true)
      else
        ({ m with load_error := some (failMsg model_id e), loading := false,
                  error_count := m.error_count + 1 }, false)

/-- One full load attempt: the synchronous `_load_model` prefix followed
by the dispatched `_load` task (when one was dispatched).  Returns the
final state and whether the substitution early-return was taken. -/
def runLoad (model_id : String) (now : Nat) (outcome : LoadOutcome)
    (m : ModelInfo) : ModelInfo × Bool :=
  let (m', _, dispatched) := load_model_pre m
  if dispatched then loadTask model_id now outcome m' else (m', false)

/-- The status string computed per model by `GetImageModels`. -/
def modelStatus (info : ModelInfo) : String :=
  let s := if info.loaded then "loaded" else "not_loaded"
  if info.loading then "loading"
  else if info.load_error.isSome then
    "error: " ++ take100 (info.load_error.getD "")
  else s

/-! ## Warm-up and the generation parameter clamping -/

/-- The request-settings fields `_generate_image` reads.  Protobuf
scalar fields default to `0` when unset, which Python's `or` treats as
falsy. -/
structure ImageSettings where
  width : Nat := 0
  height : Nat := 0
  steps : Nat := 0
deriving Repr, DecidableEq

/-- `min(max(settings.width or 512, MIN_IMAGE_SIZE), MAX_IMAGE_SIZE)`. -/
def genWidth (s : ImageSettings) : Nat :=
  min (max (if s.width = 0 then 512 else s.width) MIN_IMAGE_SIZE) MAX_IMAGE_SIZE

/-- `min(max(settings.height or 512, MIN_IMAGE_SIZE), MAX_IMAGE_SIZE)`. -/
def genHeight (s : ImageSettings) : Nat :=
  min (max (if s.height = 0 then 512 else s.height) MIN_IMAGE_SIZE) MAX_IMAGE_SIZE

/-- `min(max(settings.steps or 25, 1), MAX_STEPS)`. -/
def genSteps (s : ImageSettings) : Nat :=
  min (max (if s.steps = 0 then 25 else s.steps) 1) MAX_STEPS

/-- The `test_settings` hard-coded by `_warmup_model`: width 64,
height 64, 2 steps (guidance 1.0), independent of the model config. -/
def warmupSettings : ImageSettings :=
  { width := 64, height := 64, steps := 2 }

/-- The resolution and step count of the single synthetic generation the
warm-up performs, after `_generate_image`'s clamping. -/
def warmupGenParams : Nat × Nat × Nat :=
  (genWidth warmupSettings, genHeight warmupSettings, genSteps warmupSettings)

/-! ## Accelerator-memory eviction (`_cleanup_models`, count-based part)

The registry dictionary is an insertion-ordered association list.  The
CUDA-memory section of `_cleanup_models` sits under
`torch.cuda.is_available()` and is modelled as absent (CPU execution). -/

/-- Stable insertion used to model Python's stable `list.sort`: `x` is
placed before the first element it is strictly smaller than, so equal
keys keep their original order. -/
def insertS (lt : α → α → Bool) (x : α) : List α → List α
  | [] => [x]
  | y :: ys => if lt x y then x :: y :: ys else y :: insertS lt x ys

/-- Stable sort by the strict comparison `lt` (model of Python's
`list.sort(key=...)`, which is a stable sort and otherwise opaque
library code). -/
def sortStable (lt : α → α → Bool) (l : List α) : List α :=
  l.foldl (fun acc x => insertS lt x acc) []

/-- The sort key of `_cleanup_models`: the tuple
`(last_used, error_count)` compared lexicographically (strict). -/
def ltByUse (a b : String × ModelInfo) : Bool :=
  decide (a.2.last_used < b.2.last_used) ||
    (a.2.last_used == b.2.last_used && decide (a.2.error_count < b.2.error_count))

/-- `info.loaded and info.pipeline is not None`: the resident test. -/
def isResident (m : ModelInfo) : Bool :=
  m.loaded && m.pipeline.isSome

/-- Number of resident models in the registry
(`len([m for m in self._models.values() if m.loaded and m.pipeline is not None])`). -/
def residentCount (models : List (String × ModelInfo)) : Nat :=
  (models.filter (fun p => isResident p.2)).length

/-- Apply `f` to the registry entry named `id` (Python mutates the
aliased `ModelInfo` object in place; keys are unique). -/
def applyToEntry (id : String) (f : ModelInfo → ModelInfo)
    (models : List (String × ModelInfo)) : List (String × ModelInfo) :=
  models.map (fun p => if p.1 == id then (p.1, f p.2) else p)

/-- The eviction loop of `_cleanup_models` over the first
`count - max` entries of the sorted snapshot: skip the default model
when the snapshot held more than one entry, otherwise unload (the
release outcome given by `okF`) and stop as soon as the resident count
is back within the limit. -/
def evictLoop (okF : String → Bool) (maxRes snapshotLen : Nat) :
    List (String × ModelInfo) → List (String × ModelInfo) →
    List (String × ModelInfo)
  | [], models => models
  | (id, _) :: rest, models =>
    if id == DEFAULT_MODEL && decide (1 < snapshotLen) then
      evictLoop okF maxRes snapshotLen rest models
    else
      let models' := applyToEntry id (unload_model (okF id)) models
      if residentCount models' ≤ maxRes then models'
      else evictLoop okF maxRes snapshotLen rest models'

/-- `_cleanup_models` (count-based section): snapshot the resident
models, and when there are more than `maxRes`, sort them by
`(last_used, error_count)` and run the eviction loop over the oldest
`count - maxRes` candidates. -/
def cleanup_models (okF : String → Bool) (maxRes : Nat)
    (models : List (String × ModelInfo)) : List (String × ModelInfo) :=
  let loadedModels := models.filter (fun p => isResident p.2)
  if maxRes < loadedModels.length then
    let sorted := sortStable ltByUse loadedModels
    let num := loadedModels.length - maxRes
    if num = 0 then models
    else evictLoop okF maxRes sorted.length (sorted.take num) models
  else models

/-! ## Disk-quota eviction (`_cleanup_disk_cache`)

Sizes and the threshold are in abstract byte-like units (the examples
use 0.1 GB units so 90% of the quota is exact).  `deletable` models the
outcome of `shutil.rmtree`. -/

/-- One scanned cache subtree: name, observed last-access time, total
size, and whether `shutil.rmtree` would succeed on it. -/
structure DiskEntry where
  name : String
  atime : Nat
  size : Nat
  deletable : Bool
deriving Repr, DecidableEq

/-- The `while model_dirs and total_size > threshold` loop: pop the
oldest entry, attempt deletion; on success subtract its size from the
accounted total, on failure leave the total untouched (the failure is
only logged).  Returns the successfully deleted names and the final
accounted total. -/
def diskSweepLoop (thr : Nat) : List DiskEntry → Nat → List String × Nat
  | [], total => ([], total)
  | e :: rest, total =>
    if thr < total then
      if e.deletable then
        let (del, t) := diskSweepLoop thr rest (total - e.size)
        (e.name :: del, t)
      else
        diskSweepLoop thr rest total
    else ([], total)

/-- `_cleanup_disk_cache` on an already-scanned entry list: sort by
last-access time ascending (stable), sum the sizes, and run the
deletion loop against the threshold `thr` (which stands for
`max_disk_cache_bytes * 0.9`). -/
def cleanup_disk_cache (thr : Nat) (entries : List DiskEntry) :
    List String × Nat :=
  let sorted := sortStable (fun a b => decide (a.atime < b.atime)) entries
  let total := (sorted.map (·.size)).sum
  diskSweepLoop thr sorted total

/-! ## Cache metadata store (`_load_cache_metadata` / `_save_cache_metadata`) -/

/-- One persisted JSON record; each field may be absent from the file,
in which case `dict.get(..., 0)` supplies the default `0`. -/
structure CacheRecord where
  last_used : Option Nat
  load_count : Option Nat
  error_count : Option Nat
deriving Repr, DecidableEq

/-- The persisted mapping: model identifier to record. -/
abbrev Mapping : Type := String → Option CacheRecord

/-- `_load_cache_metadata`: a missing file leaves every counter at its
default; otherwise each registered model found in the file gets its
three counters seeded (ids unknown to the registry are ignored). -/
def load_cache_metadata (file : Option Mapping)
    (models : List (String × ModelInfo)) : List (String × ModelInfo) :=
  match file with
  | none => models
  | some data =>
    models.map (fun p =>
      match data p.1 with
      | some r =>
        (p.1, { p.2 with last_used := r.last_used.getD 0,
                         load_count := r.load_count.getD 0,
                         error_count := r.error_count.getD 0 })
      | none => p)

/-- The full record `_save_cache_metadata` writes for one model. -/
def fullRecord (m : ModelInfo) : CacheRecord :=
  { last_used := some m.last_used
    load_count := some m.load_count
    error_count := some m.error_count }

/-- The mapping `_save_cache_metadata` serialises: every registered
model's three counters. -/
def saveMapping : List (String × ModelInfo) → Mapping
  | [] => fun _ => none
  | (id, m) :: rest => fun q => if q == id then some (fullRecord m) else saveMapping rest q

/-- The on-disk state seen by the save path: the target metadata file
and the `.tmp` file. -/
structure FsState where
  target : Option Mapping
  temp : Option Mapping

/-- First half of `_save_cache_metadata`: write the serialised mapping
to the temporary file.  A crash here leaves `target` untouched. -/
def saveStep1 (models : List (String × ModelInfo)) (fs : FsState) : FsState :=
  { fs with temp := some (saveMapping models) }

/-- Second half: `os.replace(temp, target)` — atomic rename of the
temporary file onto the target. -/
def saveStep2 (fs : FsState) : FsState :=
  { target := fs.temp, temp := none }

/-- A complete, uninterrupted `_save_cache_metadata`. -/
def save_cache_metadata (models : List (String × ModelInfo)) (fs : FsState) :
    FsState :=
  saveStep2 (saveStep1 models fs)

/-! ## Shutdown (`stop`) -/

/-- `stop()` after the background threads have been joined: save the
metadata, then walk the registry and unload every model that is loaded
and holds a pipeline (release outcomes given by `okF`).  The CUDA cache
flush is a no-op in the CPU model. -/
def stopServicer (okF : String → Bool) (models : List (String × ModelInfo))
    (fs : FsState) : List (String × ModelInfo) × FsState :=
  let fs' := save_cache_metadata models fs
  let models' := models.map (fun p =>
    if p.2.loaded && p.2.pipeline.isSome then (p.1, unload_model (okF p.1) p.2) else p)
  (models', fs')

/-- The registry as `_init_models` builds it: the two catalog entries,
each with a fresh `ModelInfo`. -/
def initModels : List (String × ModelInfo) :=
  [("stabilityai/stable-diffusion-2-1", freshInfo),
   ("runwayml/stable-diffusion-v1-5", freshInfo)]

/-- A loaded model (pipeline handle `1`) whose last-used stamp is `t`. -/
def residentAt (t : Nat) : ModelInfo :=
  { pipeline := some 1, loaded := true, last_used := t, load_count := 1 }

/-- `residentAt t` after a successful unload. -/
def evictedAt (t : Nat) : ModelInfo :=
  { residentAt t with pipeline := none, loaded := false }

/-- The `ValueError` message `_load` raises when `_validate_model`
reports the missing-sub-component failure. -/
def missingComponentsMsg : String :=
  "Model validation failed: Missing required model components (UNet, TextEncoder, or VAE)"

/-! ## Theorems -/

/-- C1: the load task does **not** always leave the loading phase.  When
loading the default model fails with a message containing
"Unexpected UNet sample size", the substitution branch of `_load`
returns early (dispatching a load of `runwayml/stable-diffusion-v1-5`)
without clearing the `loading` flag, recording a `load_error`, or
incrementing `error_count`: the default model is left in the loading
phase with no terminal transition, contradicting the claimed invariant
(which the spec states as the code's intent). -/
theorem c1_substitution_leaves_loading_phase :
    (runLoad "stabilityai/stable-diffusion-2-1" 5
      (.failure "Model validation failed: Unexpected UNet sample size: 32 (expected 64)")
      freshInfo).2 = true ∧
    (runLoad "stabilityai/stable-diffusion-2-1" 5
      (.failure "Model validation failed: Unexpected UNet sample size: 32 (expected 64)")
      freshInfo).1 =
      { freshInfo with loading := true } := by
  constructor <;> rfl

/-- C4: the disk sweep deletes oldest-first only while the accounted
size exceeds the threshold and stops as soon as it is at or below it
(sizes 50, 30, 20 tenth-GB under threshold 72 tenth-GB = 90% of an
8 GB quota: exactly the oldest 50-unit entry is deleted); once the
accounted total is at or below the threshold nothing further is
deleted; and a failed deletion neither frees accounted size nor counts
the entry as deleted, leaving it for a later sweep. -/
theorem c4_disk_sweep_stops_at_threshold :
    cleanup_disk_cache 72
        [{ name := "b", atime := 2, size := 30, deletable := true },
         { name := "a", atime := 1, size := 50, deletable := true },
         { name := "c", atime := 3, size := 20, deletable := true }] = (["a"], 50) ∧
    (∀ (thr total : Nat) (entries : List DiskEntry), total ≤ thr →
      diskSweepLoop thr entries total = ([], total)) ∧
    (∀ (thr total : Nat) (e : DiskEntry) (rest : List DiskEntry),
      thr < total → e.deletable = false →
      diskSweepLoop thr (e :: rest) total = diskSweepLoop thr rest total) := by
  refine ⟨by decide, ?_, ?_⟩
  · intro thr total entries h
    cases entries with
    | nil => rfl
    | cons e rest => simp [diskSweepLoop, Nat.not_lt.mpr h]
  · intro thr total e rest h hd
    simp [diskSweepLoop, h, hd]

/-- C4 witness: the stop-at-threshold and failed-deletion clauses at
concrete inputs. -/
theorem c4_disk_sweep_stops_at_threshold_witness :
    diskSweepLoop 72 [{ name := "c", atime := 3, size := 20, deletable := true }] 50
        = ([], 50) ∧
    diskSweepLoop 72 [{ name := "a", atime := 1, size := 50, deletable := false }] 80
        = diskSweepLoop 72 [] 80 :=
  ⟨c4_disk_sweep_stops_at_threshold.2.1 72 50 _ (by decide),
   c4_disk_sweep_stops_at_threshold.2.2 72 80 _ [] (by decide) rfl⟩

/-- C5 counterexample: the claim "evicting a loaded model always
transitions it to unloaded and drops the handle, even when releasing
device resources raises" is false: `_unload_model`'s `except` wraps the
handle-dropping assignments too, so when the release raises the model
stays loaded with its handle and only `error_count` grows. -/
theorem c5_release_error_keeps_model_loaded :
    (unload_model false (residentAt 1)).loaded = true ∧
    (unload_model false (residentAt 1)).pipeline = some 1 ∧
    (unload_model false (residentAt 1)).error_count = 1 := by
  decide

/-- C5 amended: evicting a model holding a pipeline handle transitions
it to unloaded and drops the handle when the release succeeds; when the
release raises, the error is only counted (`error_count` + 1) and the
transition does **not** happen — the model keeps its handle and its
loaded flag. -/
theorem c5_unload_transitions_only_on_success (m : ModelInfo)
    (h : m.pipeline.isSome = true) :
    (unload_model true m).loaded = false ∧
    (unload_model true m).pipeline = none ∧
    (unload_model true m).error_count = m.error_count ∧
    (unload_model false m).loaded = m.loaded ∧
    (unload_model false m).pipeline = m.pipeline ∧
    (unload_model false m).error_count = m.error_count + 1 := by
  simp [unload_model, h]

/-- C5 witness: the amended statement at a concrete loaded model. -/
theorem c5_unload_transitions_only_on_success_witness :
    (residentAt 2).pipeline.isSome = true ∧
    ((unload_model true (residentAt 2)).loaded = false ∧
     (unload_model true (residentAt 2)).pipeline = none ∧
     (unload_model true (residentAt 2)).error_count = (residentAt 2).error_count ∧
     (unload_model false (residentAt 2)).loaded = (residentAt 2).loaded ∧
     (unload_model false (residentAt 2)).pipeline = (residentAt 2).pipeline ∧
     (unload_model false (residentAt 2)).error_count = (residentAt 2).error_count + 1) :=
  ⟨by decide, c5_unload_transitions_only_on_success (residentAt 2) (by decide)⟩

/-- C6 counterexample: the warm-up generation does not use the smallest
supported resolution nor the model's minimum step count.  Its hard-coded
64×64 request is clamped to 128×128 — a resolution that is not in the
default model's `supported_sizes` at all — and it runs 2 steps while the
config's `min_steps` is 10. -/
theorem c6_warmup_ignores_model_config :
    warmupGenParams = (128, 128, 2) ∧
    (128, 128) ∉ sd21Config.supported_sizes ∧
    sd21Config.supported_sizes.head? = some (512, 512) ∧
    sd21Config.min_steps = 10 := by
  decide

/-- C6 amended: the warm-up performs exactly one synthetic generation
with the fixed request 64×64 at 2 steps, which the generator's bounds
clamp to 128×128 at 2 steps, independently of the model's supported
sizes and step bounds; and a warm-up failure does not fail the load —
the success branch of the load task reaches the loaded phase regardless
of the warm-up bit, leaving `load_error` untouched. -/
theorem c6_warmup_fixed_params_and_nonfatal :
    warmupSettings = { width := 64, height := 64, steps := 2 } ∧
    warmupGenParams = (128, 128, 2) ∧
    ∀ (id : String) (now h : Nat) (wOk : Bool) (m : ModelInfo),
      (loadTask id now (.success wOk h) m).1.loaded = true ∧
      (loadTask id now (.success wOk h) m).1.loading = false ∧
      (loadTask id now (.success wOk h) m).1.load_error = m.load_error := by
  refine ⟨rfl, rfl, ?_⟩
  intro id now h wOk m
  exact ⟨rfl, rfl, rfl⟩

/-- C2: the phase invariant — `loaded` and `loading` never both true
(so exactly one of unloaded/loading/loaded holds) and the pipeline
handle present iff loaded — is preserved by `_unload_model` (either
release outcome), by the synchronous part of `_load_model`, and by the
load task on every outcome (success, ordinary failure, and the
substitution early return). -/
theorem c2_phase_invariant_preserved (m : ModelInfo) (h : phaseOk m) :
    (∀ ok : Bool, phaseOk (unload_model ok m)) ∧
    phaseOk (load_model_pre m).1 ∧
    (∀ (id : String) (now : Nat) (oc : LoadOutcome),
      phaseOk (loadTask id now oc m).1) ∧
    (∀ (id : String) (now : Nat) (oc : LoadOutcome),
      phaseOk (runLoad id now oc m).1) := by
  obtain ⟨h1, h2⟩ := h
  have hpre : phaseOk (load_model_pre m).1 := by
    by_cases hl : m.loaded = true
    · have he : (load_model_pre m).1 = m := by simp [load_model_pre, hl]
      rw [he]; exact ⟨h1, h2⟩
    · by_cases hg : m.loading = true
      · have he : (load_model_pre m).1 = m := by
          simp [load_model_pre, hl, hg]
        rw [he]; exact ⟨h1, h2⟩
      · have he : (load_model_pre m).1 = { m with loading := true } := by
          simp [load_model_pre, hl, hg]
        rw [he]
        exact ⟨fun hx => hl hx.1, h2⟩
  have htask : ∀ (m' : ModelInfo), phaseOk m' →
      ∀ (id : String) (now : Nat) (oc : LoadOutcome),
        phaseOk (loadTask id now oc m').1 := by
    rintro m' ⟨h1', h2'⟩ id now oc
    cases oc with
    | success wOk hd =>
      have he : (loadTask id now (.success wOk hd) m').1
          = { m' with pipeline := some hd, loaded := true, loading := false,
                      load_count := m'.load_count + 1, last_used := now } := rfl
      rw [he]
      exact ⟨fun hx => by simp at hx, by simp⟩
    | failure e =>
      by_cases hc : (strIn unetNeedle e && (id == DEFAULT_MODEL)) = true
      · have he : (loadTask id now (.failure e) m').1 = m' := by
          simp [loadTask, hc]
        rw [he]; exact ⟨h1', h2'⟩
      · have he : (loadTask id now (.failure e) m').1
            = { m' with load_error := some (failMsg id e), loading := false,
                        error_count := m'.error_count + 1 } := by
          simp only [Bool.not_eq_true] at hc
          simp [loadTask, hc]
        rw [he]
        exact ⟨fun hx => by simp at hx, h2'⟩
  refine ⟨?_, hpre, htask m ⟨h1, h2⟩, ?_⟩
  · intro ok
    by_cases hp : m.pipeline.isSome = true
    · cases ok with
      | true =>
        have he : unload_model true m = { m with pipeline := none, loaded := false } := by
          simp [unload_model, hp]
        rw [he]
        exact ⟨fun hx => by simp at hx, by simp⟩
      | false =>
        have he : unload_model false m = { m with error_count := m.error_count + 1 } := by
          simp [unload_model, hp]
        rw [he]; exact ⟨h1, h2⟩
    · have he : unload_model ok m = m := by
        simp only [Bool.not_eq_true] at hp
        simp [unload_model, hp]
      rw [he]; exact ⟨h1, h2⟩
  · intro id now oc
    unfold runLoad
    by_cases hd : (load_model_pre m).2.2 = true
    · simp only [hd, if_true]
      exact htask _ hpre id now oc
    · simp only [Bool.not_eq_true] at hd
      simp only [hd, Bool.false_eq_true, if_false]
      exact hpre

/-- C2 witness: the preservation statement at a fresh registry entry. -/
theorem c2_phase_invariant_preserved_witness :
    phaseOk freshInfo ∧
    ((∀ ok : Bool, phaseOk (unload_model ok freshInfo)) ∧
     phaseOk (load_model_pre freshInfo).1 ∧
     (∀ (id : String) (now : Nat) (oc : LoadOutcome),
       phaseOk (loadTask id now oc freshInfo).1) ∧
     (∀ (id : String) (now : Nat) (oc : LoadOutcome),
       phaseOk (runLoad id now oc freshInfo).1)) :=
  ⟨by decide, c2_phase_invariant_preserved freshInfo (by decide)⟩

/-- C7: when validation rejects the pipeline for a missing required
sub-component, the load task records an error message that embeds the
model identifier, leaves the model unloaded (loading false, loaded
false, no pipeline), and increments `error_count` by exactly one
relative to its value before the load attempt. -/
theorem c7_validation_failure_unloads_with_error (id : String)
    (m : ModelInfo) (now : Nat)
    (hl : m.loaded = false) (hg : m.loading = false) (hp : m.pipeline = none) :
    (runLoad id now (.failure missingComponentsMsg) m).1.loading = false ∧
    (runLoad id now (.failure missingComponentsMsg) m).1.loaded = false ∧
    (runLoad id now (.failure missingComponentsMsg) m).1.pipeline = none ∧
    (runLoad id now (.failure missingComponentsMsg) m).1.error_count
      = m.error_count + 1 ∧
    (runLoad id now (.failure missingComponentsMsg) m).1.load_error
      = some (failMsg id missingComponentsMsg) ∧
    ∃ pre post, failMsg id missingComponentsMsg = pre ++ (id ++ post) := by
  have hstr : strIn unetNeedle missingComponentsMsg = false := by decide
  have hrun : runLoad id now (.failure missingComponentsMsg) m
      = ({ m with load_error := some (failMsg id missingComponentsMsg),
                  error_count := m.error_count + 1, loading := false }, false) := by
    unfold runLoad load_model_pre
    simp [hl, hg, loadTask, hstr]
  rw [hrun]
  refine ⟨rfl, hl, hp, rfl, rfl, "Failed to load model ", ": " ++ missingComponentsMsg, ?_⟩
  simp [failMsg, String.append_assoc]

/-- C7 witness: the statement at the non-default registered model and a
fresh registry entry. -/
theorem c7_validation_failure_unloads_with_error_witness :
    (runLoad "runwayml/stable-diffusion-v1-5" 3
        (.failure missingComponentsMsg) freshInfo).1.loading = false ∧
    (runLoad "runwayml/stable-diffusion-v1-5" 3
        (.failure missingComponentsMsg) freshInfo).1.loaded = false ∧
    (runLoad "runwayml/stable-diffusion-v1-5" 3
        (.failure missingComponentsMsg) freshInfo).1.pipeline = none ∧
    (runLoad "runwayml/stable-diffusion-v1-5" 3
        (.failure missingComponentsMsg) freshInfo).1.error_count
      = freshInfo.error_count + 1 ∧
    (runLoad "runwayml/stable-diffusion-v1-5" 3
        (.failure missingComponentsMsg) freshInfo).1.load_error
      = some (failMsg "runwayml/stable-diffusion-v1-5" missingComponentsMsg) ∧
    ∃ pre post, failMsg "runwayml/stable-diffusion-v1-5" missingComponentsMsg
      = pre ++ ("runwayml/stable-diffusion-v1-5" ++ post) :=
  c7_validation_failure_unloads_with_error "runwayml/stable-diffusion-v1-5"
    freshInfo 3 rfl rfl rfl

/-- C10: `GetImageModels` reports status with the precedence
loading > error > loaded/not_loaded: "loading" whenever the loading
flag is set; otherwise an "error: " string (truncated to 100
characters) whenever `load_error` is set — even for a currently loaded
model; otherwise "loaded"/"not_loaded" by the loaded flag.  In
particular a model whose load once failed and then succeeded is loaded
but still reported with an "error: " status, because the success branch
of the load task never clears `load_error`. -/
theorem c10_status_precedence (info : ModelInfo) :
    (info.loading = true → modelStatus info = "loading") ∧
    (info.loading = false → ∀ e, info.load_error = some e →
      modelStatus info = "error: " ++ take100 e) ∧
    (info.loading = false → info.load_error = none →
      modelStatus info = if info.loaded then "loaded" else "not_loaded") ∧
    ((runLoad DEFAULT_MODEL 7 (.success true 42)
        (runLoad DEFAULT_MODEL 5 (.failure "boom") freshInfo).1).1.loaded = true ∧
     modelStatus (runLoad DEFAULT_MODEL 7 (.success true 42)
        (runLoad DEFAULT_MODEL 5 (.failure "boom") freshInfo).1).1
       = "error: " ++ take100 (failMsg DEFAULT_MODEL "boom")) := by
  refine ⟨?_, ?_, ?_, by decide, by decide⟩
  · intro hg; simp [modelStatus, hg]
  · intro hg e he; simp [modelStatus, hg, he]
  · intro hg he; simp [modelStatus, hg, he]

/-- C10 witness: the precedence clauses at concrete model states. -/
theorem c10_status_precedence_witness :
    modelStatus { freshInfo with loading := true } = "loading" ∧
    modelStatus { freshInfo with loaded := true, pipeline := some 1, load_error := some "boom" }
      = "error: " ++ take100 "boom" ∧
    modelStatus freshInfo = if freshInfo.loaded then "loaded" else "not_loaded" :=
  ⟨(c10_status_precedence _).1 rfl,
   (c10_status_precedence _).2.1 rfl "boom" rfl,
   (c10_status_precedence freshInfo).2.2.1 rfl rfl⟩

/-- C3 counterexample: with `max_models_in_memory = 2`, three loaded
models whose oldest (`last_used = 1`) is the default model, the memory
sweep evicts **nothing** — it does not fall back to the next-oldest
non-default model.  The candidate prefix holds only the oldest
`count - max` entries; when such a candidate is the default it is
skipped with no replacement, so all three models stay resident. -/
theorem c3_default_oldest_skipped_without_replacement :
    cleanup_models (fun _ => true) 2
        [("stabilityai/stable-diffusion-2-1", residentAt 1),
         ("runwayml/stable-diffusion-v1-5", residentAt 2),
         ("other/model-x", residentAt 3)]
      = [("stabilityai/stable-diffusion-2-1", residentAt 1),
         ("runwayml/stable-diffusion-v1-5", residentAt 2),
         ("other/model-x", residentAt 3)] ∧
    residentCount
        [("stabilityai/stable-diffusion-2-1", residentAt 1),
         ("runwayml/stable-diffusion-v1-5", residentAt 2),
         ("other/model-x", residentAt 3)] = 3 := by
  decide

/-- C3 amended: with `max_models_in_memory = 2` and three loaded models
with last-used stamps `t1 < t2 < t3`, the memory sweep evicts exactly
the model with `t1` when it is not the default model; when the model
with `t1` **is** the default, the sweep skips it and evicts nothing
(it does not substitute the next-oldest non-default victim). -/
theorem c3_sweep_evicts_oldest_unless_default (t1 t2 t3 : Nat)
    (h12 : t1 < t2) (h23 : t2 < t3) :
    cleanup_models (fun _ => true) 2
        [("runwayml/stable-diffusion-v1-5", residentAt t1),
         ("other/model-x", residentAt t2),
         ("stabilityai/stable-diffusion-2-1", residentAt t3)]
      = [("runwayml/stable-diffusion-v1-5", evictedAt t1),
         ("other/model-x", residentAt t2),
         ("stabilityai/stable-diffusion-2-1", residentAt t3)] ∧
    cleanup_models (fun _ => true) 2
        [("stabilityai/stable-diffusion-2-1", residentAt t1),
         ("runwayml/stable-diffusion-v1-5", residentAt t2),
         ("other/model-x", residentAt t3)]
      = [("stabilityai/stable-diffusion-2-1", residentAt t1),
         ("runwayml/stable-diffusion-v1-5", residentAt t2),
         ("other/model-x", residentAt t3)] := by
  have h13 := Nat.lt_trans h12 h23
  have n21 : decide (t2 < t1) = false := by simp [Nat.lt_asymm h12]
  have n31 : decide (t3 < t1) = false := by simp [Nat.lt_asymm h13]
  have n32 : decide (t3 < t2) = false := by simp [Nat.lt_asymm h23]
  have e21 : (t2 == t1) = false := by simp [Nat.ne_of_gt h12]
  have e31 : (t3 == t1) = false := by simp [Nat.ne_of_gt h13]
  have e32 : (t3 == t2) = false := by simp [Nat.ne_of_gt h23]
  constructor <;>
    simp [cleanup_models, sortStable, insertS, ltByUse, residentAt, evictedAt,
          isResident, residentCount, applyToEntry, evictLoop, unload_model,
          DEFAULT_MODEL, n21, n31, n32, e21, e31, e32]

/-- C3 witness: the amended sweep statement at stamps 1 < 2 < 3. -/
theorem c3_sweep_evicts_oldest_unless_default_witness :
    cleanup_models (fun _ => true) 2
        [("runwayml/stable-diffusion-v1-5", residentAt 1),
         ("other/model-x", residentAt 2),
         ("stabilityai/stable-diffusion-2-1", residentAt 3)]
      = [("runwayml/stable-diffusion-v1-5", evictedAt 1),
         ("other/model-x", residentAt 2),
         ("stabilityai/stable-diffusion-2-1", residentAt 3)] ∧
    cleanup_models (fun _ => true) 2
        [("stabilityai/stable-diffusion-2-1", residentAt 1),
         ("runwayml/stable-diffusion-v1-5", residentAt 2),
         ("other/model-x", residentAt 3)]
      = [("stabilityai/stable-diffusion-2-1", residentAt 1),
         ("runwayml/stable-diffusion-v1-5", residentAt 2),
         ("other/model-x", residentAt 3)] :=
  c3_sweep_evicts_oldest_unless_default 1 2 3 (by decide) (by decide)

/-- A metadata file whose only key is unknown to the registry. -/
def unknownOnlyFile : Mapping := fun id =>
  if id == "unknown/model" then
    some { last_used := some 5, load_count := some 1, error_count := some 0 }
  else none

/-- C8 counterexample: load-then-save is **not** a no-op on every
on-disk metadata file.  `_load_cache_metadata` ignores identifiers
unknown to the registry, and `_save_cache_metadata` writes only the
registered models, so a file holding a record for an unknown identifier
loses that record across the round trip. -/
theorem c8_roundtrip_drops_unknown_ids :
    unknownOnlyFile "unknown/model"
      = some { last_used := some 5, load_count := some 1, error_count := some 0 } ∧
    saveMapping (load_cache_metadata (some unknownOnlyFile) initModels) "unknown/model"
      = none :=
  ⟨rfl, rfl⟩

/-- C8 amended: load-then-save leaves the persisted mapping unchanged
for every file whose key set is exactly the registered model
identifiers and whose records carry all three counters; loading a
missing file leaves every counter at its default; and the save path
writes the temporary file first, so a crash before the atomic rename
leaves the previously committed target untouched. -/
theorem c8_metadata_roundtrip (data : Mapping) (a1 b1 c1 a2 b2 c2 : Nat)
    (h21 : data "stabilityai/stable-diffusion-2-1"
      = some { last_used := some a1, load_count := some b1, error_count := some c1 })
    (h15 : data "runwayml/stable-diffusion-v1-5"
      = some { last_used := some a2, load_count := some b2, error_count := some c2 })
    (hother : ∀ id, id ≠ "stabilityai/stable-diffusion-2-1" →
       id ≠ "runwayml/stable-diffusion-v1-5" → data id = none) :
    (∀ id, saveMapping (load_cache_metadata (some data) initModels) id = data id) ∧
    load_cache_metadata none initModels = initModels ∧
    (∀ (models : List (String × ModelInfo)) (fs : FsState),
      (saveStep1 models fs).target = fs.target) := by
  refine ⟨?_, rfl, fun models fs => rfl⟩
  intro id
  have hload : load_cache_metadata (some data) initModels
      = [("stabilityai/stable-diffusion-2-1",
          { freshInfo with last_used := a1, load_count := b1, error_count := c1 }),
         ("runwayml/stable-diffusion-v1-5",
          { freshInfo with last_used := a2, load_count := b2, error_count := c2 })] := by
    simp [load_cache_metadata, initModels, h21, h15]
  rw [hload]
  by_cases hq1 : id = "stabilityai/stable-diffusion-2-1"
  · subst hq1; simp [saveMapping, fullRecord, h21, freshInfo]
  · by_cases hq2 : id = "runwayml/stable-diffusion-v1-5"
    · subst hq2; simp [saveMapping, fullRecord, h15, freshInfo]
    · simp [saveMapping, beq_iff_eq, hq1, hq2, hother id hq1 hq2]

/-- A metadata file covering exactly the two registered models. -/
def registeredFile : Mapping := fun id =>
  if id == "stabilityai/stable-diffusion-2-1" then
    some { last_used := some 11, load_count := some 2, error_count := some 1 }
  else if id == "runwayml/stable-diffusion-v1-5" then
    some { last_used := some 7, load_count := some 1, error_count := some 0 }
  else none

/-- C8 witness: the amended round-trip statement at a concrete file. -/
theorem c8_metadata_roundtrip_witness :
    (∀ id, saveMapping (load_cache_metadata (some registeredFile) initModels) id
      = registeredFile id) ∧
    load_cache_metadata none initModels = initModels ∧
    (∀ (models : List (String × ModelInfo)) (fs : FsState),
      (saveStep1 models fs).target = fs.target) :=
  c8_metadata_roundtrip registeredFile 11 2 1 7 1 0 rfl rfl
    (by intro id h1 h2; simp [registeredFile, beq_iff_eq, h1, h2])

/-- C9 counterexample: `stop` saves the metadata **before** unloading,
and a failed release leaves the model loaded.  With one loaded model
whose release raises, after `stop` returns the model is still loaded
with its pipeline handle, its in-memory `error_count` is 1, but the
file on disk records `error_count = 0` — neither "every model
unloaded" nor "disk reflects the final counters" holds. -/
theorem c9_stop_release_failure :
    (stopServicer (fun _ => false)
        [("stabilityai/stable-diffusion-2-1", residentAt 1)] ⟨none, none⟩).1
      = [("stabilityai/stable-diffusion-2-1", { residentAt 1 with error_count := 1 })] ∧
    ({ residentAt 1 with error_count := 1 } : ModelInfo).loaded = true ∧
    ({ residentAt 1 with error_count := 1 } : ModelInfo).pipeline = some 1 ∧
    (∃ f : Mapping,
      (stopServicer (fun _ => false)
          [("stabilityai/stable-diffusion-2-1", residentAt 1)] ⟨none, none⟩).2.target
        = some f ∧
      f "stabilityai/stable-diffusion-2-1"
        = some { last_used := some 1, load_count := some 1, error_count := some 0 }) :=
  ⟨rfl, rfl, rfl,
   saveMapping [("stabilityai/stable-diffusion-2-1", residentAt 1)], rfl, rfl⟩

/-- A successful unload does not change the three persisted counters. -/
theorem fullRecord_unload_ok (m : ModelInfo) :
    fullRecord (unload_model true m) = fullRecord m := by
  by_cases h : m.pipeline.isSome = true <;> simp [unload_model, h, fullRecord]

/-- `saveMapping` only reads identifiers and persisted counters, so it
is unchanged by any per-entry map that preserves both. -/
theorem saveMapping_map_fst (g : String × ModelInfo → String × ModelInfo)
    (hg1 : ∀ p, (g p).1 = p.1) (hg2 : ∀ p, fullRecord (g p).2 = fullRecord p.2) :
    ∀ (models : List (String × ModelInfo)) (id : String),
      saveMapping (models.map g) id = saveMapping models id := by
  intro models id
  induction models with
  | nil => rfl
  | cons p rest ih =>
    simp only [List.map_cons, saveMapping, hg1 p, hg2 p, ih]

/-- C9 amended: when no model is mid-load and every release succeeds,
after `stop` returns every model is unloaded with no pipeline handle,
and the metadata written to disk (saved before the unload pass) agrees
with every model's final counters, because a successful unload changes
no persisted counter. -/
theorem c9_stop_unloads_and_persists (models : List (String × ModelInfo))
    (fs : FsState)
    (hph : ∀ p ∈ models, p.2.loading = false ∧ p.2.pipeline.isSome = p.2.loaded) :
    (∀ p ∈ (stopServicer (fun _ => true) models fs).1,
        p.2.loaded = false ∧ p.2.pipeline = none ∧ p.2.loading = false) ∧
    (stopServicer (fun _ => true) models fs).2.target = some (saveMapping models) ∧
    (∀ id, saveMapping models id
        = saveMapping (stopServicer (fun _ => true) models fs).1 id) := by
  have hmap : (stopServicer (fun _ => true) models fs).1
      = models.map (fun p => if (p.2.loaded && p.2.pipeline.isSome) = true
          then (p.1, unload_model true p.2) else p) := rfl
  refine ⟨?_, rfl, ?_⟩
  · intro p hp
    rw [hmap] at hp
    simp only [List.mem_map] at hp
    obtain ⟨q, hq, rfl⟩ := hp
    obtain ⟨hqg, hqp⟩ := hph q hq
    by_cases hr : (q.2.loaded && q.2.pipeline.isSome) = true
    · have h2 : q.2.pipeline.isSome = true := ((Bool.and_eq_true ..).mp hr).2
      simp only [hr, if_true]
      refine ⟨?_, ?_, ?_⟩ <;> simp [unload_model, h2, hqg]
    · simp only [Bool.not_eq_true] at hr
      simp only [hr, Bool.false_eq_true, if_false]
      rw [hqp] at hr
      have hl : q.2.loaded = false := by
        cases hol : q.2.loaded with
        | false => rfl
        | true => rw [hol] at hr; simp at hr
      have hpn : q.2.pipeline = none := by
        have hs : q.2.pipeline.isSome = false := hqp.trans hl
        exact Option.not_isSome_iff_eq_none.mp (by simp [hs])
      exact ⟨hl, hpn, hqg⟩
  · intro id
    rw [hmap, saveMapping_map_fst _ ?_ ?_ models id]
    · intro p
      by_cases h : (p.2.loaded && p.2.pipeline.isSome) = true <;> simp [h]
    · intro p
      by_cases h : (p.2.loaded && p.2.pipeline.isSome) = true <;>
        simp [h, fullRecord_unload_ok]

/-- C9 witness: the amended shutdown statement with one loaded model
and a successful release. -/
theorem c9_stop_unloads_and_persists_witness :
    (∀ p ∈ (stopServicer (fun _ => true)
        [("stabilityai/stable-diffusion-2-1", residentAt 3)] ⟨none, none⟩).1,
        p.2.loaded = false ∧ p.2.pipeline = none ∧ p.2.loading = false) ∧
    (stopServicer (fun _ => true)
        [("stabilityai/stable-diffusion-2-1", residentAt 3)] ⟨none, none⟩).2.target
      = some (saveMapping [("stabilityai/stable-diffusion-2-1", residentAt 3)]) ∧
    (∀ id, saveMapping [("stabilityai/stable-diffusion-2-1", residentAt 3)] id
        = saveMapping (stopServicer (fun _ => true)
            [("stabilityai/stable-diffusion-2-1", residentAt 3)] ⟨none, none⟩).1 id) :=
  c9_stop_unloads_and_persists _ _ (by decide)

end Starweave
